import Mathlib

/-!
Verification of the command-dispatch framework in `util/cmd.py`:
parser building (`makeParser`), argument binding (`main_command`),
hook dispatch (`cmd_call_cmd`, `attach_main`, `load_cmd_plugins`),
the invocation controller (`main_argparse`) and input checking
(`check_input`).  Python values are modelled by a small inductive
with Python truthiness; argparse namespaces and parser defaults are
association lists.
-/

set_option autoImplicit false

namespace ViralCmd

/-- Model of a Python value as it appears in parsed-argument namespaces
and as a `condition` argument: `None`, booleans, integers and strings. -/
inductive PyVal where
  | none
  | bool (b : Bool)
  | int (n : Int)
  | str (s : String)
  deriving DecidableEq, Repr

/-- Python truthiness of a modelled value: `None`, `False`, `0` and the
empty string are falsy, everything else is truthy. -/
def PyVal.truthy : PyVal → Bool
  | .none => false
  | .bool b => b
  | .int n => decide (n ≠ 0)
  | .str s => decide (s.length ≠ 0)

/-- An argparse namespace (the result of `vars(args)`) and the defaults
dictionary of a parser: an association list from field name to value. -/
abbrev PyDict : Type := List (String × PyVal)

/-- `set_defaults(k=v)` on a parser: overwrite the entry for `k` if it is
present, append it otherwise. -/
def dictSet (d : PyDict) (k : String) (v : PyVal) : PyDict :=
  if d.any (fun kv => kv.1 == k) then
    d.map (fun kv => if kv.1 == k then (k, v) else kv)
  else
    d ++ [(k, v)]

/- ---------------------------------------------------------------------
`check_input` / `BadInputError` (src/util/cmd.py lines 254-264).
--------------------------------------------------------------------- -/

/-- `BadInputError(reason)`: the bad-input signal raised by `check_input`;
it carries the human-readable reason passed to its constructor. -/
structure BadInputError where
  reason : String
  deriving DecidableEq, Repr

/-- `check_input(condition, error_msg)`: raise `BadInputError(error_msg)`
when `condition` is falsy, otherwise fall through returning `None`
(modelled as `Except.ok ()`). -/
def check_input (condition : PyVal) (error_msg : String) :
    Except BadInputError Unit :=
  if !condition.truthy then Except.error ⟨error_msg⟩ else Except.ok ()

/- ---------------------------------------------------------------------
The argument binder `main_command` (src/util/cmd.py lines 110-124).
--------------------------------------------------------------------- -/

/-- Modelled from the spec: `util.misc.getargspec` is not under `src/`.
Per the spec it reports the handler declared positional/keyword
parameter names together with its variadic-positional (`*args`) and
variadic-keyword (`**kwargs`) parameters, if declared; the tuple slice
`argspec[1:3]` in the source is the pair `(varargs, varkw)`. -/
structure ArgSpec where
  args : List String
  varargs : Option String
  varkw : Option String
  deriving DecidableEq, Repr

/-- Modelled from the spec: `util.misc.flatten` is not under `src/`.
Over the flat list of declared parameter names produced by the argspec
it is the identity. -/
def flatten (l : List String) : List String := l

/-- Modelled from the spec: `util.misc.dict_subset` is not under `src/`.
Per the spec it selects only the namespace fields whose names lie in
the given key set, ignoring all other fields. -/
def dict_subset (d : PyDict) (keys : List String) : PyDict :=
  d.filter (fun kv => keys.contains kv.1)

/-- `main_command(mainfunc)`: assert that the handler declares neither
`*args` nor `**kwargs` (an `AssertionError` at construction time
otherwise), then return the adapter that calls the handler with the
subset of the namespace fields named by its declared parameters.
The handler is modelled as a function of its keyword-argument
dictionary. -/
def main_command {β : Type} (argspec : ArgSpec)
    (mainfunc : PyDict → β) : Except String (PyDict → β) :=
  if argspec.varargs = Option.none ∧ argspec.varkw = Option.none then
    Except.ok (fun args => mainfunc (dict_subset args (flatten argspec.args)))
  else
    Except.error "Command impls with *args or **kwargs not supported"

/- ---------------------------------------------------------------------
Hook registry and the built-in hook implementations
(src/util/cmd.py lines 33-39, 126-142, 279-285).
--------------------------------------------------------------------- -/

/-- Modelled from the spec: the hook manager of `util.cmd_plugins` is not
under `src/`.  An implementation of the `call_command` extension point
takes the handler and the parsed arguments and either produces a result
or defers to the next implementation (`Option.none`); the `trylast`
marker forces it to run only after all unmarked implementations. -/
structure CallCmdImpl (α β : Type) where
  trylast : Bool
  impl : (α → β) → α → Option β

/-- Modelled from the spec: implementation order of the hook manager —
implementations run in priority order, those marked `trylast` last. -/
def orderImpls {α β : Type} (impls : List (CallCmdImpl α β)) :
    List (CallCmdImpl α β) :=
  impls.filter (fun i => !i.trylast) ++ impls.filter (fun i => i.trylast)

/-- Modelled from the spec: `call_command` is value-returning —
implementations run in order until one returns a non-deferred result,
which becomes the result of the hook invocation. -/
def firstResult {α β : Type} (impls : List (CallCmdImpl α β))
    (cmd_main : α → β) (args : α) : Option β :=
  match impls with
  | [] => Option.none
  | i :: rest =>
    match i.impl cmd_main args with
    | Option.some r => Option.some r
    | Option.none => firstResult rest cmd_main args

/-- Invoking the `call_command` extension point on a registry of
implementations: order them (`trylast` last) and take the first
non-deferred result. -/
def hook_cmd_call_cmd {α β : Type} (impls : List (CallCmdImpl α β))
    (cmd_main : α → β) (args : α) : Option β :=
  firstResult (orderImpls impls) cmd_main args

/-- `cmd_call_cmd(cmd_main, args)` (trylast): the built-in fallback
implementation of `call_command` — it simply returns `cmd_main(args)`. -/
def cmd_call_cmd {α β : Type} : CallCmdImpl α β :=
  ⟨true, fun cmd_main args => Option.some (cmd_main args)⟩

/-- `cmd_handle_file_arg(val)` (trylast): the other built-in hook
implementation — it returns its file argument unchanged. -/
def cmd_handle_file_arg (val : PyVal) : PyVal := val

/-- The `call_command` implementations contributed by the built-ins alone:
only `cmd_call_cmd` implements this extension point. -/
def builtinCallCmdImpls (α β : Type) : List (CallCmdImpl α β) :=
  [cmd_call_cmd]

/-- The `func_main` callback stored by `attach_main` via
`parser.set_defaults(func_main=call_main)`: given parsed arguments it
invokes the `call_command` extension point with the attached handler
and the arguments, and returns the hook result. -/
def attach_main_func_main {α β : Type} (impls : List (CallCmdImpl α β))
    (cmd_main : α → β) : α → Option β :=
  fun args => hook_cmd_call_cmd impls cmd_main args

/-- Modelled from the spec: `list_name_plugin` of the hook manager is not
under `src/`; it returns the identities of the currently registered
plugins.  The registry state is modelled as that list of identities. -/
def list_name_plugin (reg : List String) : List String := reg

/-- Modelled from the spec: `register` of the hook manager is not under
`src/`; registration is idempotent — re-registering an already
registered plugin identity is a no-op. -/
def registerPlugin (reg : List String) (p : String) : List String :=
  if reg.contains p then reg else reg ++ [p]

/-- `load_cmd_plugins()`: when no plugin is registered yet, register the
two built-in plugins (this module itself and the metadata plugin);
otherwise do nothing. -/
def load_cmd_plugins (reg : List String) : List String :=
  if (list_name_plugin reg).isEmpty then
    registerPlugin (registerPlugin reg "util.cmd") "util.metadata"
  else
    reg

/- ---------------------------------------------------------------------
The parser builder `makeParser` (src/util/cmd.py lines 178-206).
--------------------------------------------------------------------- -/

/-- Model of an argparse parser as `makeParser` observes and modifies
it: its description and usage strings, whether the standard help option
is attached (`add_help`), whether the custom enumerating `--help`
action and the `--version` option were added, its defaults dictionary
(`set_defaults`), and its subcommand dispatcher — the list of attached
subparsers as pairs of command name and help string.  The contents of
each child parser are populated by the descriptor builder and are not
modelled. -/
structure Parser where
  description : Option String
  usage : Option String
  add_help : Bool
  customHelpAction : Bool
  versionOption : Bool
  defaults : PyDict
  subcommands : List (Option String × Option String)
  deriving DecidableEq, Repr

/-- A command descriptor from the `commands` list: the command name
(`Option.none` for the nameless single-command form), the builder
function documentation string (`__doc__`, `Option.none` when absent),
and the builder itself.  In the nameless branch the builder is called
with no parser and constructs one; in the multi-command branch it
populates the fresh subparser it is given. -/
structure CommandDesc where
  name : Option String
  doc : Option String
  build : Option Parser → Parser

/-- The blank help string substituted for a missing docstring so that
sphinx-argparse does not render the subcommand as undocumented. -/
def blankHelp : String := "   "

/-- The help string attached to a subparser, from lines 199-203 of the
source: the builder docstring when truthy and nonempty, else `None`;
then the substitution condition is the expression
`(not help_str) and os.environ.get(READTHEDOCS) or sphinx in
sys.modules`, which by Python operator precedence is
`((not help_str) and readthedocs) or sphinx_loaded`. -/
def help_string (doc : Option String) (readthedocs sphinx_loaded : Bool) :
    Option String :=
  let h := match doc with
    | Option.some s => if s.length ≠ 0 then Option.some s else Option.none
    | Option.none => Option.none
  if (h.isNone && readthedocs) || sphinx_loaded then Option.some blankHelp
  else h

/-- The multi-command branch of `makeParser` (lines 192-205): a root
parser with the given description, usage `%(prog)s subcommand`,
`add_help=False`, the custom `--help` action, a `--version` option and
a subcommand dispatcher holding one named subparser per descriptor,
each carrying the help string derived from its builder docstring. -/
def make_parser_multi (commands : List CommandDesc) (description : String)
    (readthedocs sphinx_loaded : Bool) : Parser :=
  { description := Option.some description
    usage := Option.some "%(prog)s subcommand"
    add_help := false
    customHelpAction := true
    versionOption := true
    defaults := []
    subcommands := commands.map
      (fun c => (c.name, help_string c.doc readthedocs sphinx_loaded)) }

/-- `makeParser(commands, description)`: if the list holds exactly one
nameless command (line 188: `len(commands) == 1 and commands[0][0] ==
None`), call that builder with no arguments and default the `command`
field to the empty string; otherwise take the multi-command branch. -/
def makeParser (commands : List CommandDesc) (description : String)
    (readthedocs sphinx_loaded : Bool) : Parser :=
  match commands with
  | [c] =>
    if c.name.isNone then
      let p := c.build Option.none
      { p with defaults := dictSet p.defaults "command" (PyVal.str "") }
    else
      make_parser_multi [c] description readthedocs sphinx_loaded
  | cs => make_parser_multi cs description readthedocs sphinx_loaded

/-- The test on line 188 of the source as a predicate on the command
list: `len(commands) == 1 and commands[0][0] == None`. -/
def isSingleNameless : List CommandDesc → Bool
  | [c] => c.name.isNone
  | _ => false

/-- An argparse parser fresh from `ArgumentParser()` with none of the
modelled decorations, used as the child parser a trivial builder
returns. -/
def freshParser : Parser :=
  { description := Option.none
    usage := Option.none
    add_help := true
    customHelpAction := false
    versionOption := false
    defaults := []
    subcommands := [] }

/-- The Python truthiness test `cmd_parser.__doc__ and
len(cmd_parser.__doc__)` applied to a builder docstring: present and
nonempty. -/
def docTruthy : Option String → Bool
  | Option.some s => decide (s.length ≠ 0)
  | Option.none => false

/- ---------------------------------------------------------------------
The invocation controller `main_argparse`
(src/util/cmd.py lines 209-251).
--------------------------------------------------------------------- -/

/-- The test on line 215 of the source deciding whether the forced-help
special case applies to a single argument:
`len(commands) > 1 or commands[0][0] != None`. -/
def isMultiMode (commands : List CommandDesc) : Bool :=
  match commands with
  | [] => false
  | c :: cs => decide (cs.length + 1 > 1) || !c.name.isNone

/-- The parsed-argument fields `main_argparse` inspects: the optional
`tmp_dir` field (its presence selects the scoped-temp-dir branch), the
optional `tmp_dirKeep` flag (`hasattr` plus its value), and the
selected command name. -/
structure CmdArgs where
  tmp_dir : Option String
  tmp_dirKeep : Option Bool
  command : String
  deriving DecidableEq, Repr

/-- The keep condition on line 241 of the source:
`(hasattr(args, tmp_dirKeep) and args.tmp_dirKeep) or
util.file.keep_tmp()`.  `keep_tmp_env` is the value of the external
global keep-override `util.file.keep_tmp()`. -/
def keep_decision (args : CmdArgs) (keep_tmp_env : Bool) : Bool :=
  (match args.tmp_dirKeep with
   | Option.some b => b
   | Option.none => false) || keep_tmp_env

/-- What happened to the scoped temporary directory, alongside the
command result that the `try`/`finally` block propagates. -/
structure TmpDirOutcome where
  created : Bool
  removed : Bool
  keptLogged : Bool
  result : Except String (Option Int)
  deriving Repr

/-- The scoped-temp-dir block of `main_argparse` (lines 224-245): the
directory is created, the command runs (`cmd` is its outcome: a raised
exception or a returned value), and the `finally` clause runs on every
outcome — when the keep condition holds the directory is left in place
and its path logged, otherwise it is removed recursively; the command
result (exception included) then continues to propagate. -/
def run_with_tmp_dir (keep : Bool) (cmd : Except String (Option Int)) :
    TmpDirOutcome :=
  { created := true
    removed := !keep
    keptLogged := keep
    result := cmd }

/-- `main_argparse` after argument parsing: branch on the presence of a
`tmp_dir` field (line 224) — with it, run the command inside the scoped
temp dir; without it, just run the command.  On a normal return,
normalize a `None` result to exit status `0` (lines 249-251) and pass
any other result through; a raised exception propagates unchanged. -/
def main_argparse_run (args : CmdArgs) (keep_tmp_env : Bool)
    (cmd : Except String (Option Int)) :
    TmpDirOutcome × Except String Int :=
  let out :=
    if args.tmp_dir.isSome then
      run_with_tmp_dir (keep_decision args keep_tmp_env) cmd
    else
      { created := false, removed := false, keptLogged := false,
        result := cmd }
  (out,
   match out.result with
   | Except.error e => Except.error e
   | Except.ok r => Except.ok (r.getD 0))

/- ---------------------------------------------------------------------
Theorems.
--------------------------------------------------------------------- -/

/-- C10: `check_input(condition, error_msg)` raises `BadInputError`
carrying exactly `error_msg` when `condition` is falsy, and returns
normally (with no other effect) exactly when `condition` is truthy. -/
theorem check_input_raises_iff (condition : PyVal) (error_msg : String) :
    (check_input condition error_msg = Except.error ⟨error_msg⟩ ↔
      condition.truthy = false) ∧
    (check_input condition error_msg = Except.ok () ↔
      condition.truthy = true) := by
  cases h : condition.truthy <;> simp [check_input, h]

/-- C4: `main_command` rejects a handler declaring a variadic-positional
or variadic-keyword parameter at adapter-construction time — no adapter
exists in that case, so the failure can never first occur at call time
— and construction succeeds exactly for handlers without such
parameters. -/
theorem main_command_variadic_rejected {β : Type} (argspec : ArgSpec)
    (mainfunc : PyDict → β) :
    ((∃ adapter, main_command argspec mainfunc = Except.ok adapter) ↔
      (argspec.varargs = Option.none ∧ argspec.varkw = Option.none)) ∧
    ((main_command argspec mainfunc =
        Except.error "Command impls with *args or **kwargs not supported") ↔
      ¬(argspec.varargs = Option.none ∧ argspec.varkw = Option.none)) := by
  by_cases h : argspec.varargs = Option.none ∧ argspec.varkw = Option.none <;>
    simp [main_command, h]

/-- C3: for a handler with no variadic parameters, the adapter produced
by `main_command` calls the handler with exactly the namespace fields
whose names lie in both the namespace and the handler declared
parameter names, ignoring all other namespace fields. -/
theorem main_command_binds_declared_fields {β : Type} (argspec : ArgSpec)
    (mainfunc : PyDict → β) (h1 : argspec.varargs = Option.none)
    (h2 : argspec.varkw = Option.none) (ns : PyDict) :
    ∃ adapter, main_command argspec mainfunc = Except.ok adapter ∧
      adapter ns = mainfunc (dict_subset ns (flatten argspec.args)) ∧
      ∀ kv : String × PyVal,
        kv ∈ dict_subset ns (flatten argspec.args) ↔
          kv ∈ ns ∧ kv.1 ∈ argspec.args := by
  refine ⟨fun args => mainfunc (dict_subset args (flatten argspec.args)),
    ?_, rfl, ?_⟩
  · simp [main_command, h1, h2]
  · intro kv
    simp [dict_subset, flatten, List.mem_filter]

/-- C3 witness: a handler declaring parameters `a` and `c` applied to the
namespace `a=1, b=2, c=3, command="x"` is called with exactly `a=1` and
`c=3`. -/
theorem main_command_binds_declared_fields_witness :
    ∃ adapter,
      main_command (ArgSpec.mk ["a", "c"] Option.none Option.none)
          (id : PyDict → PyDict) = Except.ok adapter ∧
      adapter [("a", PyVal.int 1), ("b", PyVal.int 2), ("c", PyVal.int 3),
               ("command", PyVal.str "x")] =
        [("a", PyVal.int 1), ("c", PyVal.int 3)] := by
  obtain ⟨adapter, hcons, hval, _⟩ :=
    main_command_binds_declared_fields
      (ArgSpec.mk ["a", "c"] Option.none Option.none) (id : PyDict → PyDict)
      rfl rfl
      [("a", PyVal.int 1), ("b", PyVal.int 2), ("c", PyVal.int 3),
       ("command", PyVal.str "x")]
  exact ⟨adapter, hcons, by rw [hval]; rfl⟩

/-- C2: with only the built-in hook implementations registered, invoking
the `call_command` extension point with a handler and parsed arguments
returns exactly `handler(args)`, and the `func_main` callback stored by
`attach_main` returns that same value. -/
theorem call_command_default_is_handler {α β : Type} (handler : α → β)
    (args : α) :
    hook_cmd_call_cmd (builtinCallCmdImpls α β) handler args =
      Option.some (handler args) ∧
    attach_main_func_main (builtinCallCmdImpls α β) handler args =
      Option.some (handler args) :=
  ⟨rfl, rfl⟩

/-- C9: `load_cmd_plugins` registers the two built-in plugins only when
no plugin is registered yet, and is idempotent — a second call leaves
the registry state unchanged. -/
theorem load_cmd_plugins_idempotent (reg : List String) :
    load_cmd_plugins (load_cmd_plugins reg) = load_cmd_plugins reg ∧
    (reg ≠ [] → load_cmd_plugins reg = reg) := by
  cases reg with
  | nil => exact ⟨rfl, fun h => absurd rfl h⟩
  | cons p ps => exact ⟨rfl, fun _ => rfl⟩

/-- C9 witness: loading plugins twice from the empty registry equals
loading once, and loading over a nonempty registry is a no-op. -/
theorem load_cmd_plugins_idempotent_witness :
    load_cmd_plugins (load_cmd_plugins []) = load_cmd_plugins [] ∧
    load_cmd_plugins ["x"] = ["x"] :=
  ⟨(load_cmd_plugins_idempotent []).1,
   (load_cmd_plugins_idempotent ["x"]).2 (by decide)⟩

/-- C5: for a command list holding exactly one nameless descriptor,
`makeParser` returns the parser produced by that descriptor builder
unmodified except that the `command` field is defaulted to the empty
string — in particular it adds no subcommand dispatcher, no custom
`--help` action and no `--version` option in this case. -/
theorem make_parser_single_nameless (build : Option Parser → Parser)
    (doc : Option String) (description : String)
    (readthedocs sphinx_loaded : Bool) :
    let p := build Option.none
    let r := makeParser [⟨Option.none, doc, build⟩] description
               readthedocs sphinx_loaded
    r.defaults = dictSet p.defaults "command" (PyVal.str "") ∧
    r.description = p.description ∧
    r.usage = p.usage ∧
    r.add_help = p.add_help ∧
    r.customHelpAction = p.customHelpAction ∧
    r.versionOption = p.versionOption ∧
    r.subcommands = p.subcommands :=
  ⟨rfl, rfl, rfl, rfl, rfl, rfl, rfl⟩

/-- C8 counterexample: when the sphinx module is loaded, a builder with
a documentation string does not keep it as its help — the blank string
is substituted even though the documentation is present — and the
substituted string is the three-space blank string, not the empty
string (substitution with READTHEDOCS set and documentation absent
also yields the three-space string). -/
theorem make_parser_help_counterexample :
    (makeParser
        [⟨Option.some "assemble", Option.some "Assemble reads.",
          fun _ => freshParser⟩,
         ⟨Option.some "align", Option.none, fun _ => freshParser⟩]
        "d" false true).subcommands =
      [(Option.some "assemble", Option.some "   "),
       (Option.some "align", Option.some "   ")] ∧
    (Option.some "   " : Option String) ≠ Option.some "Assemble reads." ∧
    help_string Option.none true false = Option.some "   " ∧
    ("   " : String) ≠ "" := by
  refine ⟨rfl, by decide, rfl, by decide⟩

/-- C8 amended: in the multi-command branch of `makeParser` each
subparser help string is `help_string` of its builder docstring, and
`help_string` behaves as follows — a truthy (present, nonempty)
docstring is kept as the help whenever sphinx is not loaded; the
three-space blank string is substituted whenever sphinx is loaded, and
also whenever the docstring is absent or empty and READTHEDOCS is set;
with no docstring and neither flag, the help is absent. -/
theorem make_parser_help_amended (commands : List CommandDesc)
    (description : String) (readthedocs sphinx_loaded : Bool)
    (h : isSingleNameless commands = false) :
    (makeParser commands description readthedocs sphinx_loaded).subcommands =
      commands.map
        (fun c => (c.name, help_string c.doc readthedocs sphinx_loaded)) ∧
    ∀ doc : Option String,
      (docTruthy doc = true → sphinx_loaded = false →
        help_string doc readthedocs sphinx_loaded = doc) ∧
      (sphinx_loaded = true →
        help_string doc readthedocs sphinx_loaded = Option.some blankHelp) ∧
      (docTruthy doc = false → readthedocs = true →
        help_string doc readthedocs sphinx_loaded = Option.some blankHelp) ∧
      (docTruthy doc = false → readthedocs = false → sphinx_loaded = false →
        help_string doc readthedocs sphinx_loaded = Option.none) := by
  constructor
  · match commands with
    | [] => rfl
    | [c] =>
      cases hn : c.name with
      | none => simp [isSingleNameless, hn] at h
      | some n =>
        simp [makeParser, make_parser_multi, hn]
    | c₁ :: c₂ :: cs => rfl
  · intro doc
    cases doc with
    | none =>
      cases readthedocs <;> cases sphinx_loaded <;>
        simp [help_string, docTruthy]
    | some s =>
      cases hs : decide (s.length ≠ 0) <;>
        cases readthedocs <;> cases sphinx_loaded <;>
          simp_all [help_string, docTruthy]

/-- C8 witness for the amended claim: on a two-command list with one
documented and one undocumented builder, outside any documentation
mode, the documented builder keeps its docstring and the undocumented
one gets no help string. -/
theorem make_parser_help_amended_witness :
    (makeParser
        [⟨Option.some "assemble", Option.some "Assemble reads.",
          fun _ => freshParser⟩,
         ⟨Option.some "align", Option.none, fun _ => freshParser⟩]
        "d" false false).subcommands =
      [(Option.some "assemble", Option.some "Assemble reads."),
       (Option.some "align", Option.none)] := by
  have h := make_parser_help_amended
    [⟨Option.some "assemble", Option.some "Assemble reads.",
      fun _ => freshParser⟩,
     ⟨Option.some "align", Option.none, fun _ => freshParser⟩]
    "d" false false rfl
  rw [h.1]
  have h1 := (h.2 (Option.some "Assemble reads.")).1 (by decide) rfl
  have h2 := ((h.2 Option.none).2.2.2) rfl rfl rfl
  simp [h1, h2]

/-- C1: when the parsed arguments include a `tmp_dir` field, the scoped
temporary directory is created before the command runs and, on every
outcome of the command (normal return or raised exception), it is
removed recursively when neither the `tmp_dirKeep` flag nor the global
keep-override is set, and left in place with its path logged when
either is set; a raised exception continues to propagate after
cleanup. -/
theorem tmp_dir_scoped_cleanup (args : CmdArgs) (keep_tmp_env : Bool)
    (cmd : Except String (Option Int))
    (htmp : args.tmp_dir.isSome = true) :
    let out := (main_argparse_run args keep_tmp_env cmd).1
    out.created = true ∧
    (args.tmp_dirKeep ≠ Option.some true → keep_tmp_env = false →
      out.removed = true ∧ out.keptLogged = false) ∧
    (args.tmp_dirKeep = Option.some true ∨ keep_tmp_env = true →
      out.removed = false ∧ out.keptLogged = true) ∧
    ∀ e, cmd = Except.error e →
      (main_argparse_run args keep_tmp_env cmd).2 = Except.error e := by
  refine ⟨?_, ?_, ?_, ?_⟩
  · simp [main_argparse_run, run_with_tmp_dir, htmp]
  · intro hkeep henv
    cases hk : args.tmp_dirKeep with
    | none =>
      simp [main_argparse_run, run_with_tmp_dir, keep_decision, htmp, hk,
        henv]
    | some b =>
      cases b with
      | false =>
        simp [main_argparse_run, run_with_tmp_dir, keep_decision, htmp, hk,
          henv]
      | true => exact absurd hk hkeep
  · intro hkeep
    rcases hkeep with hk | henv
    · simp [main_argparse_run, run_with_tmp_dir, keep_decision, htmp, hk]
    · cases args.tmp_dirKeep <;>
        simp [main_argparse_run, run_with_tmp_dir, keep_decision, htmp,
          henv]
  · intro e he
    subst he
    simp [main_argparse_run, run_with_tmp_dir, htmp]

/-- C1 witness: for a command with a temp dir that raises, the directory
is removed and the exception propagates when `tmp_dirKeep` is false;
it is kept and logged when `tmp_dirKeep` is true. -/
theorem tmp_dir_scoped_cleanup_witness :
    ((main_argparse_run ⟨Option.some "/tmp", Option.some false, "asm"⟩
        false (Except.error "boom")).1.removed = true ∧
     (main_argparse_run ⟨Option.some "/tmp", Option.some false, "asm"⟩
        false (Except.error "boom")).1.keptLogged = false) ∧
    (main_argparse_run ⟨Option.some "/tmp", Option.some false, "asm"⟩
        false (Except.error "boom")).2 = Except.error "boom" ∧
    ((main_argparse_run ⟨Option.some "/tmp", Option.some true, "asm"⟩
        false (Except.error "boom")).1.removed = false ∧
     (main_argparse_run ⟨Option.some "/tmp", Option.some true, "asm"⟩
        false (Except.error "boom")).1.keptLogged = true) :=
  ⟨(tmp_dir_scoped_cleanup ⟨Option.some "/tmp", Option.some false, "asm"⟩
      false (Except.error "boom") rfl).2.1 (by decide) rfl,
   (tmp_dir_scoped_cleanup ⟨Option.some "/tmp", Option.some false, "asm"⟩
      false (Except.error "boom") rfl).2.2.2 "boom" rfl,
   (tmp_dir_scoped_cleanup ⟨Option.some "/tmp", Option.some true, "asm"⟩
      false (Except.error "boom") rfl).2.2.1 (Or.inl rfl)⟩

/-- C6: `main_argparse` returns exit status 0 when the invoked command
returns `None`, and passes any other returned value through unchanged
as the process exit status. -/
theorem main_argparse_exit_status (args : CmdArgs) (keep_tmp_env : Bool)
    (v : Int) :
    (main_argparse_run args keep_tmp_env (Except.ok Option.none)).2 =
      Except.ok 0 ∧
    (main_argparse_run args keep_tmp_env (Except.ok (Option.some v))).2 =
      Except.ok v := by
  by_cases h : args.tmp_dir.isSome <;>
    simp [main_argparse_run, run_with_tmp_dir, h]
